import Mathlib

/-!
Verification of the OmniReader persistence core (omnireader-core).

Shallow embedding of the SQLite-backed store in `src/db.rs` together with the
domain entities of `src/book.rs` and `src/annotation.rs`, and the error
taxonomy of `src/error.rs`.

Modelling conventions:
* SQLite `REAL` columns (`start_percent`, `end_percent`, `percent`, which the
  code only stores and compares, never does arithmetic on) are modelled as `Rat`.
* `i64` timestamps are `Int`, `u32` counters are `Nat`, `Vec<u8>` is `List Nat`.
* Rust `Result<T, OmniReaderError>` is `Except OmniReaderError T`; a mutating
  operation returns the new database state on success and, exactly like a
  failed SQLite statement, leaves no state change on error.
* Each table is a list of rows in rowid (insertion) order.  `file_type` and
  `annotation_type` are persisted as TEXT, so the row types carry `String`
  fields there, while the domain structs carry the enums, mirroring the
  conversions done in `db.rs`.
* Crucially, the connection opened by `Database::open` / `open_in_memory`
  never executes `PRAGMA foreign_keys = ON` (neither `initialize_schema` nor
  any other code issues a PRAGMA, and rusqlite keeps SQLite's default, which
  is OFF).  SQLite therefore parses but does **not** enforce the
  `REFERENCES books(id) ON DELETE CASCADE` clauses of the schema: a DELETE on
  `books` touches only `books`, and an INSERT with a dangling `book_id`
  succeeds.  The operations below embed that actual behaviour.
-/

/-- Error taxonomy of `src/error.rs` (`OmniReaderError`).  Every rusqlite
failure is converted to the `Database` variant carrying the message. -/
inductive OmniReaderError where
  | Database (message : String)
  | FileNotFound (path : String)
  | UnsupportedFormat (extension : String)
  | ParseError (message : String)
  | IoError (message : String)
deriving DecidableEq, Repr

/-- `BookType` of `src/book.rs`. -/
inductive BookType where
  | Pdf
  | Epub
deriving DecidableEq, Repr

/-- `BookType::extension` (book.rs:14). -/
def BookType.extension : BookType → String
  | BookType.Pdf => "pdf"
  | BookType.Epub => "epub"

/-- Character-wise uppercasing; on the ASCII strings compared by
`HighlightColor::from_hex` this agrees with Rust's `str::to_uppercase`. -/
def upperStr (s : String) : String :=
  String.mk (s.data.map Char.toUpper)

/-- Character-wise lowercasing; on the ASCII strings compared by
`BookType::from_extension` this agrees with Rust's `str::to_lowercase`. -/
def lowerStr (s : String) : String :=
  String.mk (s.data.map Char.toLower)

/-- `BookType::from_extension` (book.rs:22): lowercases the argument and
matches the two known extensions. -/
def BookType.from_extension (ext : String) : Option BookType :=
  if lowerStr ext = "pdf" then some BookType.Pdf
  else if lowerStr ext = "epub" then some BookType.Epub
  else none

/-- `AnnotationType` of `src/annotation.rs`. -/
inductive AnnotationType where
  | Highlight
  | Note
deriving DecidableEq, Repr

/-- `HighlightColor` of `src/annotation.rs`. -/
inductive HighlightColor where
  | Yellow
  | Green
  | Blue
  | Pink
  | Orange
deriving DecidableEq, Repr

/-- `HighlightColor::hex` (annotation.rs:24). -/
def HighlightColor.hex : HighlightColor → String
  | HighlightColor.Yellow => "#FFEB3B"
  | HighlightColor.Green => "#4CAF50"
  | HighlightColor.Blue => "#2196F3"
  | HighlightColor.Pink => "#E91E63"
  | HighlightColor.Orange => "#FF9800"

/-- `HighlightColor::from_hex` (annotation.rs:35): uppercases the argument and
matches the five palette hex strings.  Rust's `str::to_uppercase` agrees with
the character-wise `String.toUpper` on these ASCII comparisons. -/
def HighlightColor.from_hex (hex : String) : Option HighlightColor :=
  let u := upperStr hex
  if u = "#FFEB3B" then some HighlightColor.Yellow
  else if u = "#4CAF50" then some HighlightColor.Green
  else if u = "#2196F3" then some HighlightColor.Blue
  else if u = "#E91E63" then some HighlightColor.Pink
  else if u = "#FF9800" then some HighlightColor.Orange
  else none

/-- Domain struct `Book` (book.rs:33). -/
structure Book where
  id : String
  title : String
  author : Option String
  file_path : String
  file_type : BookType
  cover_data : Option (List Nat)
  added_at : Int
  last_read_at : Option Int
  total_pages : Nat
deriving DecidableEq, Repr

/-- Domain struct `Annotation` (annotation.rs:49). -/
structure Annotation where
  id : String
  book_id : String
  annotation_type : AnnotationType
  start_percent : Rat
  end_percent : Rat
  page_number : Nat
  color : String
  selected_text : Option String
  note_text : Option String
  created_at : Int
deriving DecidableEq, Repr

/-- Domain struct `ReadingPosition` (annotation.rs:120).  The
`reading_positions` table row has exactly the same shape, so this type doubles
as the row type. -/
structure ReadingPosition where
  book_id : String
  percent : Rat
  page_number : Nat
  updated_at : Int
deriving DecidableEq, Repr

/-- A row of the `books` table (db.rs:47): `file_type` is a TEXT column. -/
structure BookRow where
  id : String
  title : String
  author : Option String
  file_path : String
  file_type : String
  cover_data : Option (List Nat)
  added_at : Int
  last_read_at : Option Int
  total_pages : Nat
deriving DecidableEq, Repr

/-- A row of the `annotations` table (db.rs:59): `annotation_type` is a TEXT
column. -/
structure AnnotationRow where
  id : String
  book_id : String
  annotation_type : String
  start_percent : Rat
  end_percent : Rat
  page_number : Nat
  color : String
  selected_text : Option String
  note_text : Option String
  created_at : Int
deriving DecidableEq, Repr

/-- The row written by `Database::insert_book` (db.rs:88): the enum is
persisted via `file_type.extension()`. -/
def BookRow.ofBook (b : Book) : BookRow :=
  { id := b.id, title := b.title, author := b.author, file_path := b.file_path,
    file_type := b.file_type.extension, cover_data := b.cover_data,
    added_at := b.added_at, last_read_at := b.last_read_at,
    total_pages := b.total_pages }

/-- Row-to-domain conversion done inside `get_all_books` / `get_book`
(db.rs:120-132): an unrecognized `file_type` string silently falls back to
`BookType::Pdf` via `unwrap_or`. -/
def BookRow.toBook (r : BookRow) : Book :=
  { id := r.id, title := r.title, author := r.author, file_path := r.file_path,
    file_type := (BookType.from_extension r.file_type).getD BookType.Pdf,
    cover_data := r.cover_data, added_at := r.added_at,
    last_read_at := r.last_read_at, total_pages := r.total_pages }

/-- The row written by `Database::insert_annotation` (db.rs:199-224): the enum
is persisted as `"highlight"` or `"note"`. -/
def AnnotationRow.ofAnn (a : Annotation) : AnnotationRow :=
  { id := a.id, book_id := a.book_id,
    annotation_type :=
      match a.annotation_type with
      | AnnotationType.Highlight => "highlight"
      | AnnotationType.Note => "note",
    start_percent := a.start_percent, end_percent := a.end_percent,
    page_number := a.page_number, color := a.color,
    selected_text := a.selected_text, note_text := a.note_text,
    created_at := a.created_at }

/-- Row-to-domain conversion done inside `get_annotations` (db.rs:236-252):
`"note"` maps to `Note`, anything else to `Highlight`. -/
def AnnotationRow.toAnn (r : AnnotationRow) : Annotation :=
  { id := r.id, book_id := r.book_id,
    annotation_type :=
      if r.annotation_type = "note" then AnnotationType.Note
      else AnnotationType.Highlight,
    start_percent := r.start_percent, end_percent := r.end_percent,
    page_number := r.page_number, color := r.color,
    selected_text := r.selected_text, note_text := r.note_text,
    created_at := r.created_at }

/-- State of the store: the contents of the three tables created by
`initialize_schema` (db.rs:43), each in rowid order. -/
structure Database where
  books : List BookRow
  annotations : List AnnotationRow
  reading_positions : List ReadingPosition
deriving DecidableEq, Repr

namespace Database

/-- `Database::open_in_memory` (db.rs:31) followed by `initialize_schema`:
fresh empty tables.  No PRAGMA is executed, so the connection keeps SQLite's
default of not enforcing foreign keys. -/
def open_in_memory : Database :=
  { books := [], annotations := [], reading_positions := [] }

/-- `Database::insert_book` (db.rs:88).  The INSERT fails atomically on a
`books.id` primary-key or `books.file_path` UNIQUE violation (db.rs:47-57);
rusqlite surfaces either as `OmniReaderError::Database`. -/
def insert_book (db : Database) (book : Book) :
    Except OmniReaderError Database :=
  if db.books.any (fun r => r.id = book.id) then
    Except.error (OmniReaderError.Database "UNIQUE constraint failed: books.id")
  else if db.books.any (fun r => r.file_path = book.file_path) then
    Except.error
      (OmniReaderError.Database "UNIQUE constraint failed: books.file_path")
  else
    Except.ok { db with books := db.books ++ [BookRow.ofBook book] }

/-- Ordering used by `get_all_books`' `ORDER BY added_at DESC` (db.rs:115). -/
def addedDesc (a b : BookRow) : Prop :=
  b.added_at ≤ a.added_at

instance : DecidableRel addedDesc :=
  fun a b => decidable_of_iff (b.added_at ≤ a.added_at) Iff.rfl

instance : IsTotal BookRow addedDesc :=
  ⟨fun a b => le_total b.added_at a.added_at⟩

instance : IsTrans BookRow addedDesc :=
  ⟨fun _ _ _ h1 h2 => le_trans h2 h1⟩

/-- `Database::get_all_books` (db.rs:111): every row of `books`, ordered by
`added_at` descending, converted to domain values. -/
def get_all_books (db : Database) : Except OmniReaderError (List Book) :=
  Except.ok ((db.books.insertionSort addedDesc).map BookRow.toBook)

/-- `Database::get_book` (db.rs:140): first row with the given id, or an
explicit `none`. -/
def get_book (db : Database) (id : String) :
    Except OmniReaderError (Option Book) :=
  Except.ok ((db.books.find? (fun r => r.id = id)).map BookRow.toBook)

/-- `Database::book_exists_by_path` (db.rs:168). -/
def book_exists_by_path (db : Database) (file_path : String) :
    Except OmniReaderError Bool :=
  Except.ok (db.books.any (fun r => r.file_path = file_path))

/-- `Database::delete_book` (db.rs:179): a single `DELETE FROM books WHERE
id = ?1`.  Because the connection never enables `PRAGMA foreign_keys`, the
`ON DELETE CASCADE` clauses of `annotations` and `reading_positions`
(db.rs:61, db.rs:73) are inert: only the `books` table changes. -/
def delete_book (db : Database) (id : String) :
    Except OmniReaderError Database :=
  Except.ok { db with books := db.books.filter (fun r => ¬ r.id = id) }

/-- `Database::update_last_read` (db.rs:186); the nondeterministic
`chrono::Utc::now().timestamp()` is passed in as `now`. -/
def update_last_read (db : Database) (id : String) (now : Int) :
    Except OmniReaderError Database :=
  Except.ok
    { db with
      books := db.books.map (fun r =>
        if r.id = id then { r with last_read_at := some now } else r) }

/-- `Database::insert_annotation` (db.rs:199).  The only constraint SQLite
enforces on this connection is the `annotations.id` primary key: the
`book_id REFERENCES books(id)` clause is not checked because foreign-key
enforcement was never switched on. -/
def insert_annotation (db : Database) (a : Annotation) :
    Except OmniReaderError Database :=
  if db.annotations.any (fun r => r.id = a.id) then
    Except.error
      (OmniReaderError.Database "UNIQUE constraint failed: annotations.id")
  else
    Except.ok { db with annotations := db.annotations ++ [AnnotationRow.ofAnn a] }

/-- Ordering used by `get_annotations`' `ORDER BY start_percent` (db.rs:231). -/
def startAsc (a b : AnnotationRow) : Prop :=
  a.start_percent ≤ b.start_percent

instance : DecidableRel startAsc :=
  fun a b => decidable_of_iff (a.start_percent ≤ b.start_percent) Iff.rfl

instance : IsTotal AnnotationRow startAsc :=
  ⟨fun a b => le_total a.start_percent b.start_percent⟩

instance : IsTrans AnnotationRow startAsc :=
  ⟨fun _ _ _ h1 h2 => le_trans h1 h2⟩

/-- `Database::get_annotations` (db.rs:227): the rows with the given
`book_id`, ordered by `start_percent` ascending, converted to domain
values. -/
def get_annotations (db : Database) (book_id : String) :
    Except OmniReaderError (List Annotation) :=
  Except.ok
    (((db.annotations.filter (fun r => r.book_id = book_id)).insertionSort
      startAsc).map AnnotationRow.toAnn)

/-- `Database::delete_annotation` (db.rs:260). -/
def delete_annotation (db : Database) (id : String) :
    Except OmniReaderError Database :=
  Except.ok
    { db with annotations := db.annotations.filter (fun r => ¬ r.id = id) }

/-- The list-level upsert behind `save_reading_position`: `INSERT ... ON
CONFLICT(book_id) DO UPDATE SET percent, page_number, updated_at` (db.rs:271).
If a row with the key exists it is overwritten in place (its `book_id` is
unchanged), otherwise the new row is appended. -/
def savePos (l : List ReadingPosition) (p : ReadingPosition) :
    List ReadingPosition :=
  if l.any (fun r => r.book_id = p.book_id) then
    l.map (fun r =>
      if r.book_id = p.book_id then
        { book_id := r.book_id, percent := p.percent,
          page_number := p.page_number, updated_at := p.updated_at }
      else r)
  else
    l ++ [p]

/-- `Database::save_reading_position` (db.rs:269). -/
def save_reading_position (db : Database) (p : ReadingPosition) :
    Except OmniReaderError Database :=
  Except.ok { db with reading_positions := savePos db.reading_positions p }

/-- `Database::get_reading_position` (db.rs:291): first row with the given
`book_id`, or an explicit `none`. -/
def get_reading_position (db : Database) (book_id : String) :
    Except OmniReaderError (Option ReadingPosition) :=
  Except.ok (db.reading_positions.find? (fun r => r.book_id = book_id))

end Database

/-!
## Concrete scenarios used as evidence

`c1...` exercises the cascade-delete claim on a store holding one book, one
annotation for it and one reading position for it; `c2...` exercises the
foreign-key claim on an empty store.
-/

def c1Book : Book :=
  { id := "b1", title := "Test Book", author := none, file_path := "/b.pdf",
    file_type := BookType.Pdf, cover_data := none, added_at := 100,
    last_read_at := none, total_pages := 100 }

def c1Ann : Annotation :=
  { id := "a1", book_id := "b1", annotation_type := AnnotationType.Highlight,
    start_percent := 10, end_percent := 15, page_number := 1,
    color := "#FFEB3B", selected_text := some "Selected text",
    note_text := none, created_at := 101 }

def c1Pos : ReadingPosition :=
  { book_id := "b1", percent := 25, page_number := 13, updated_at := 102 }

/-- The state reached by inserting `c1Book`, `c1Ann`, `c1Pos` into a fresh
store and then calling `delete_book "b1"`. -/
def c1Deleted : Database :=
  { books := [], annotations := [AnnotationRow.ofAnn c1Ann],
    reading_positions := [c1Pos] }

/-- insert book, insert its annotation, save its position, delete the book. -/
def c1Run : Except OmniReaderError Database := do
  let db1 ← Database.insert_book Database.open_in_memory c1Book
  let db2 ← Database.insert_annotation db1 c1Ann
  let db3 ← Database.save_reading_position db2 c1Pos
  Database.delete_book db3 "b1"

/-- C1: the claim says `delete_book` atomically removes the book, all its
annotations and its reading position.  On the code it does not: the
connection never runs `PRAGMA foreign_keys = ON`, so the declared
`ON DELETE CASCADE` is not enforced.  Concretely, after inserting book
`"b1"`, one annotation and one reading position for it, `delete_book "b1"`
succeeds and `get_book` returns absence, yet `get_annotations "b1"` still
returns the annotation and `get_reading_position "b1"` still returns the
position, contradicting the claim. -/
theorem c1_delete_book_leaves_orphans :
    c1Run = Except.ok c1Deleted ∧
    Database.get_book c1Deleted "b1" = Except.ok none ∧
    Database.get_annotations c1Deleted "b1" = Except.ok [c1Ann] ∧
    Database.get_reading_position c1Deleted "b1" = Except.ok (some c1Pos) :=
  ⟨rfl, rfl, rfl, rfl⟩

def c2Ann : Annotation :=
  { id := "a9", book_id := "missing", annotation_type := AnnotationType.Highlight,
    start_percent := 10, end_percent := 15, page_number := 1,
    color := "#FFEB3B", selected_text := some "orphan", note_text := none,
    created_at := 50 }

def c2After : Database :=
  { books := [], annotations := [AnnotationRow.ofAnn c2Ann],
    reading_positions := [] }

/-- C2: the claim says `insert_annotation` fails with a `Database` error when
`book_id` references no existing book.  On the code it does not: with
foreign-key enforcement left at SQLite's default (off, no PRAGMA is ever
executed), inserting an annotation whose `book_id` is `"missing"` into an
empty store — where `get_book "missing"` returns absence — succeeds and the
orphan row is stored and returned by `get_annotations`. -/
theorem c2_insert_annotation_unchecked_fk :
    Database.get_book Database.open_in_memory "missing" = Except.ok none ∧
    Database.insert_annotation Database.open_in_memory c2Ann =
      Except.ok c2After ∧
    Database.get_annotations c2After "missing" = Except.ok [c2Ann] :=
  ⟨rfl, rfl, rfl⟩

/-- C7: `HighlightColor::from_hex` round-trips on the five palette entries,
and is case-insensitive: a string whose uppercasing equals a palette entry's
hex string (palette hex strings are already uppercase, so this is equality up
to letter case) parses to that entry, and a string matching no palette entry
up to case parses to `none`. -/
theorem c7_from_hex_case_insensitive (s : String) :
    (∀ c : HighlightColor, HighlightColor.from_hex c.hex = some c) ∧
    (∀ c : HighlightColor, upperStr s = c.hex →
      HighlightColor.from_hex s = some c) ∧
    ((∀ c : HighlightColor, ¬ upperStr s = c.hex) →
      HighlightColor.from_hex s = none) := by
  refine ⟨?_, ?_, ?_⟩
  · intro c
    cases c <;> rfl
  · intro c h
    cases c <;>
      simp only [HighlightColor.hex] at h <;>
      simp only [HighlightColor.from_hex, h] <;>
      rfl
  · intro h
    have hY := h HighlightColor.Yellow
    have hG := h HighlightColor.Green
    have hB := h HighlightColor.Blue
    have hP := h HighlightColor.Pink
    have hO := h HighlightColor.Orange
    simp only [HighlightColor.hex] at hY hG hB hP hO
    simp only [HighlightColor.from_hex]
    rw [if_neg hY, if_neg hG, if_neg hB, if_neg hP, if_neg hO]

/-- Witness for C7 at the concrete lowercase input `"#ffeb3b"`. -/
theorem c7_from_hex_case_insensitive_witness :
    upperStr "#ffeb3b" = HighlightColor.hex HighlightColor.Yellow ∧
    HighlightColor.from_hex "#ffeb3b" = some HighlightColor.Yellow :=
  ⟨by decide, (c7_from_hex_case_insensitive "#ffeb3b").2.1 HighlightColor.Yellow
    (by decide)⟩

/-- C3: inserting a book whose `file_path` is already present in the store
fails with an `OmniReaderError.Database` error (the `books.file_path` UNIQUE
constraint); the failed statement produces no new state, so the store is
unchanged and still holds only the first book for that path. -/
theorem c3_insert_book_duplicate_path_fails
    (db : Database) (r : BookRow) (b : Book)
    (hr : r ∈ db.books) (hp : b.file_path = r.file_path) :
    ∃ msg, Database.insert_book db b =
      Except.error (OmniReaderError.Database msg) := by
  unfold Database.insert_book
  by_cases h1 : db.books.any (fun x => x.id = b.id) = true
  · exact ⟨"UNIQUE constraint failed: books.id", by rw [if_pos h1]⟩
  · have h2 : db.books.any (fun x => x.file_path = b.file_path) = true := by
      rw [List.any_eq_true]
      exact ⟨r, hr, by simp [hp]⟩
    exact ⟨"UNIQUE constraint failed: books.file_path",
      by rw [if_neg h1, if_pos h2]⟩

/-- Witness for C3: a store holding `c1Book`'s row rejects a second book with
the same path `"/b.pdf"`. -/
theorem c3_insert_book_duplicate_path_fails_witness :
    BookRow.ofBook c1Book ∈ (Database.mk [BookRow.ofBook c1Book] [] []).books ∧
    ({ c1Book with id := "b2", title := "Other" } : Book).file_path =
      (BookRow.ofBook c1Book).file_path ∧
    ∃ msg, Database.insert_book (Database.mk [BookRow.ofBook c1Book] [] [])
      { c1Book with id := "b2", title := "Other" } =
      Except.error (OmniReaderError.Database msg) :=
  ⟨by decide, by decide,
    c3_insert_book_duplicate_path_fails
      (Database.mk [BookRow.ofBook c1Book] [] [])
      (BookRow.ofBook c1Book)
      { c1Book with id := "b2", title := "Other" }
      (by decide) (by decide)⟩

/-- C8: single-entity lookups represent "not found" as a successful result
carrying an explicit `none`, never an error: `get_book` and
`get_reading_position` always return `Except.ok` in the storage-failure-free
model, and return `Except.ok none` exactly when no matching row exists. -/
theorem c8_lookup_absence_is_ok_none (db : Database) (id bid : String) :
    (∃ v, Database.get_book db id = Except.ok v) ∧
    (∃ v, Database.get_reading_position db bid = Except.ok v) ∧
    ((∀ r ∈ db.books, ¬ r.id = id) →
      Database.get_book db id = Except.ok none) ∧
    ((∀ r ∈ db.reading_positions, ¬ r.book_id = bid) →
      Database.get_reading_position db bid = Except.ok none) := by
  refine ⟨⟨_, rfl⟩, ⟨_, rfl⟩, ?_, ?_⟩
  · intro h
    unfold Database.get_book
    have : db.books.find? (fun r => r.id = id) = none := by
      rw [List.find?_eq_none]
      intro x hx
      simpa using h x hx
    rw [this]
    rfl
  · intro h
    unfold Database.get_reading_position
    have : db.reading_positions.find? (fun r => r.book_id = bid) = none := by
      rw [List.find?_eq_none]
      intro x hx
      simpa using h x hx
    rw [this]

/-- Witness for C8 on the empty store and id `"x"`. -/
theorem c8_lookup_absence_is_ok_none_witness :
    Database.get_book Database.open_in_memory "x" = Except.ok none ∧
    Database.get_reading_position Database.open_in_memory "x" =
      Except.ok none :=
  ⟨(c8_lookup_absence_is_ok_none Database.open_in_memory "x" "x").2.2.1
      (by intro r hr; simp [Database.open_in_memory] at hr),
    (c8_lookup_absence_is_ok_none Database.open_in_memory "x" "x").2.2.2
      (by intro r hr; simp [Database.open_in_memory] at hr)⟩

/-- C10: deleting an id that matches no stored book succeeds and leaves the
whole store (books, annotations and reading positions) unchanged: the DELETE
statement simply affects zero rows. -/
theorem c10_delete_book_missing_id_noop (db : Database) (id : String)
    (h : ∀ r ∈ db.books, ¬ r.id = id) :
    Database.delete_book db id = Except.ok db := by
  unfold Database.delete_book
  have hf : db.books.filter (fun r => ¬ r.id = id) = db.books := by
    rw [List.filter_eq_self]
    intro a ha
    simpa using h a ha
  rw [hf]

/-- Witness for C10 on the empty store and id `"x"`. -/
theorem c10_delete_book_missing_id_noop_witness :
    Database.delete_book Database.open_in_memory "x" =
      Except.ok Database.open_in_memory :=
  c10_delete_book_missing_id_noop Database.open_in_memory "x"
    (by intro r hr; simp [Database.open_in_memory] at hr)

/-- Filtering for the conflict key commutes with the upsert's row rewrite,
because overwriting a row keeps its `book_id`. -/
theorem filter_map_update (l : List ReadingPosition) (p : ReadingPosition) :
    (l.map (fun r => if r.book_id = p.book_id then
        ReadingPosition.mk r.book_id p.percent p.page_number p.updated_at
      else r)).filter (fun r => r.book_id = p.book_id) =
    (l.filter (fun r => r.book_id = p.book_id)).map (fun r =>
      ReadingPosition.mk r.book_id p.percent p.page_number p.updated_at) := by
  induction l with
  | nil => rfl
  | cons a t ih =>
    by_cases ha : a.book_id = p.book_id
    · simp [List.filter_cons, ha, ih]
    · simp [List.filter_cons, ha, ih]

/-- On a table whose `book_id` column is unique (the PRIMARY KEY invariant,
phrased for the one key involved), the upsert leaves exactly the saved row for
that key. -/
theorem filter_savePos (l : List ReadingPosition) (p : ReadingPosition)
    (h : (l.filter (fun r => r.book_id = p.book_id)).length ≤ 1) :
    (Database.savePos l p).filter (fun r => r.book_id = p.book_id) = [p] := by
  unfold Database.savePos
  by_cases hany : l.any (fun r => r.book_id = p.book_id) = true
  · rw [if_pos hany, filter_map_update]
    obtain ⟨r0, hr0mem, hr0⟩ := List.any_eq_true.mp hany
    cases hfl : l.filter (fun r => r.book_id = p.book_id) with
    | nil =>
      exfalso
      exact (List.filter_eq_nil_iff.mp hfl) r0 hr0mem hr0
    | cons r1 rest =>
      have hrest : rest = [] := by
        rw [hfl] at h
        simpa using h
      subst hrest
      have hr1 : r1.book_id = p.book_id := by
        have hmem : r1 ∈ l.filter (fun r => r.book_id = p.book_id) := by
          rw [hfl]
          exact List.mem_cons_self _ _
        simpa using List.of_mem_filter hmem
      have hu : (if r1.book_id = p.book_id then
          ReadingPosition.mk r1.book_id p.percent p.page_number p.updated_at
        else r1) = p := by
        rw [if_pos hr1, hr1]
      simp only [List.map_cons, List.map_nil, hu]
      rw [hr1]
  · rw [if_neg hany, List.filter_append]
    have hany' : l.any (fun r => r.book_id = p.book_id) = false :=
      Bool.eq_false_iff.mpr hany
    have hnil : l.filter (fun r => r.book_id = p.book_id) = [] := by
      rw [List.filter_eq_nil_iff]
      exact List.any_eq_false.mp hany'
    rw [hnil]
    simp

/-- C4: `save_reading_position` is an upsert.  Starting from any store whose
`reading_positions` table holds at most one row for the key (the PRIMARY KEY
invariant), saving two positions for the same `book_id` in sequence succeeds
and leaves exactly one stored row for that `book_id`, whose `percent`,
`page_number` and `updated_at` are the second call's values; no duplicate row
is ever created. -/
theorem c4_save_reading_position_upsert (db : Database)
    (p1 p2 : ReadingPosition) (hb : p2.book_id = p1.book_id)
    (hwf : (db.reading_positions.filter
      (fun r => r.book_id = p1.book_id)).length ≤ 1) :
    ∃ db1 db2,
      Database.save_reading_position db p1 = Except.ok db1 ∧
      Database.save_reading_position db1 p2 = Except.ok db2 ∧
      db2.reading_positions.filter (fun r => r.book_id = p1.book_id) =
        [ReadingPosition.mk p1.book_id p2.percent p2.page_number
          p2.updated_at] := by
  refine ⟨_, _, rfl, rfl, ?_⟩
  have h1 : (Database.savePos db.reading_positions p1).filter
      (fun r => r.book_id = p1.book_id) = [p1] :=
    filter_savePos db.reading_positions p1 hwf
  have h2 : ((Database.savePos db.reading_positions p1).filter
      (fun r => r.book_id = p2.book_id)).length ≤ 1 := by
    rw [hb, h1]
    simp
  have h3 := filter_savePos (Database.savePos db.reading_positions p1) p2 h2
  rw [← hb]
  exact h3

/-- Witness for C4: two saves for `"b1"` on the empty store leave exactly the
second position. -/
theorem c4_save_reading_position_upsert_witness :
    ((Database.open_in_memory.reading_positions.filter
      (fun r => r.book_id = ("b1" : String))).length ≤ 1) ∧
    ∃ db1 db2,
      Database.save_reading_position Database.open_in_memory
        (ReadingPosition.mk "b1" 25 13 102) = Except.ok db1 ∧
      Database.save_reading_position db1
        (ReadingPosition.mk "b1" 50 25 103) = Except.ok db2 ∧
      db2.reading_positions.filter (fun r => r.book_id = ("b1" : String)) =
        [ReadingPosition.mk "b1" 50 25 103] :=
  ⟨by decide,
    c4_save_reading_position_upsert Database.open_in_memory
      (ReadingPosition.mk "b1" 25 13 102)
      (ReadingPosition.mk "b1" 50 25 103) rfl (by decide)⟩

/-- C5: `get_annotations(book_id)` returns exactly the annotations whose
`book_id` equals the argument (a permutation of the filtered table, converted
to domain values), sorted by `start_percent` ascending — whatever the
insertion order of the rows — and returns the empty sequence when the book
has none. -/
theorem c5_get_annotations_filtered_sorted (db : Database) (bid : String) :
    ∃ res, Database.get_annotations db bid = Except.ok res ∧
      res.Perm ((db.annotations.filter (fun r => r.book_id = bid)).map
        AnnotationRow.toAnn) ∧
      res.Pairwise (fun a b => a.start_percent ≤ b.start_percent) ∧
      ((∀ r ∈ db.annotations, ¬ r.book_id = bid) → res = []) := by
  refine ⟨_, rfl, ?_, ?_, ?_⟩
  · exact (List.perm_insertionSort Database.startAsc _).map AnnotationRow.toAnn
  · have hs := List.sorted_insertionSort Database.startAsc
      (db.annotations.filter (fun r => r.book_id = bid))
    rw [List.pairwise_map]
    exact hs
  · intro h
    have hnil : db.annotations.filter (fun r => r.book_id = bid) = [] := by
      rw [List.filter_eq_nil_iff]
      intro a ha
      simpa using h a ha
    rw [hnil]
    rfl

def c5NoteRow : AnnotationRow :=
  { id := "a2", book_id := "b", annotation_type := "note", start_percent := 50,
    end_percent := 50, page_number := 2, color := "#FFEB3B",
    selected_text := none, note_text := some "a note", created_at := 2 }

def c5HlRow : AnnotationRow :=
  { id := "a3", book_id := "b", annotation_type := "highlight",
    start_percent := 20, end_percent := 30, page_number := 1,
    color := "#4CAF50", selected_text := some "text", note_text := none,
    created_at := 3 }

def c5OtherRow : AnnotationRow :=
  { id := "a4", book_id := "other", annotation_type := "highlight",
    start_percent := 5, end_percent := 6, page_number := 1,
    color := "#4CAF50", selected_text := none, note_text := none,
    created_at := 4 }

def c5Db : Database :=
  { books := [], annotations := [c5NoteRow, c5HlRow, c5OtherRow],
    reading_positions := [] }

/-- Witness for C5: on a store holding two rows for `"b"` inserted out of
order plus a row for another book, the result is sorted ascending and keeps
only book `"b"`. -/
theorem c5_get_annotations_filtered_sorted_witness :
    (∃ res, Database.get_annotations c5Db "b" = Except.ok res ∧
      res.Perm ((c5Db.annotations.filter (fun r => r.book_id = "b")).map
        AnnotationRow.toAnn) ∧
      res.Pairwise (fun a b => a.start_percent ≤ b.start_percent) ∧
      ((∀ r ∈ c5Db.annotations, ¬ r.book_id = "b") → res = [])) ∧
    Database.get_annotations c5Db "b" =
      Except.ok [AnnotationRow.toAnn c5HlRow, AnnotationRow.toAnn c5NoteRow] :=
  ⟨c5_get_annotations_filtered_sorted c5Db "b", rfl⟩

/-- C6: `get_all_books()` returns all stored books (a permutation of the
table, converted to domain values), sorted by `added_at` descending, so the
most recently added book comes first. -/
theorem c6_get_all_books_sorted_desc (db : Database) :
    ∃ res, Database.get_all_books db = Except.ok res ∧
      res.Perm (db.books.map BookRow.toBook) ∧
      res.Pairwise (fun a b => b.added_at ≤ a.added_at) := by
  refine ⟨_, rfl, ?_, ?_⟩
  · exact (List.perm_insertionSort Database.addedDesc _).map BookRow.toBook
  · have hs := List.sorted_insertionSort Database.addedDesc db.books
    rw [List.pairwise_map]
    exact hs

def c6OldRow : BookRow :=
  { id := "b1", title := "Old", author := none, file_path := "/old.pdf",
    file_type := "pdf", cover_data := none, added_at := 1,
    last_read_at := none, total_pages := 10 }

def c6NewRow : BookRow :=
  { id := "b2", title := "New", author := none, file_path := "/new.epub",
    file_type := "epub", cover_data := none, added_at := 5,
    last_read_at := none, total_pages := 20 }

def c6Db : Database :=
  { books := [c6OldRow, c6NewRow], annotations := [], reading_positions := [] }

/-- Witness for C6: with an older book stored before a newer one, the newer
book comes first. -/
theorem c6_get_all_books_sorted_desc_witness :
    (∃ res, Database.get_all_books c6Db = Except.ok res ∧
      res.Perm (c6Db.books.map BookRow.toBook) ∧
      res.Pairwise (fun a b => b.added_at ≤ a.added_at)) ∧
    Database.get_all_books c6Db =
      Except.ok [BookRow.toBook c6NewRow, BookRow.toBook c6OldRow] :=
  ⟨c6_get_all_books_sorted_desc c6Db, rfl⟩

/-- C9: a stored `books` row whose `file_type` column is neither `"pdf"` nor
`"epub"` (case-insensitively) — so `BookType::from_extension` yields no
match — does not make `get_all_books` or `get_book` fail: the row is
returned with `file_type` silently defaulted to `BookType::Pdf` by the
`unwrap_or(BookType::Pdf)` in the row conversion. -/
theorem c9_unknown_file_type_defaults_pdf (db : Database) (r : BookRow)
    (hr : r ∈ db.books)
    (h1 : ¬ lowerStr r.file_type = "pdf")
    (h2 : ¬ lowerStr r.file_type = "epub") :
    BookType.from_extension r.file_type = none ∧
    (BookRow.toBook r).file_type = BookType.Pdf ∧
    (∃ bs, Database.get_all_books db = Except.ok bs ∧ BookRow.toBook r ∈ bs) ∧
    (∃ b, Database.get_book db r.id = Except.ok (some b)) := by
  have hfe : BookType.from_extension r.file_type = none := by
    unfold BookType.from_extension
    rw [if_neg h1, if_neg h2]
  refine ⟨hfe, ?_, ?_, ?_⟩
  · simp [BookRow.toBook, hfe]
  · refine ⟨_, rfl, ?_⟩
    refine List.mem_map_of_mem _ ?_
    exact ((List.perm_insertionSort Database.addedDesc db.books).mem_iff).mpr hr
  · unfold Database.get_book
    cases hfind : db.books.find? (fun x => x.id = r.id) with
    | none =>
      exfalso
      have := List.find?_eq_none.mp hfind r hr
      simp at this
    | some y =>
      exact ⟨BookRow.toBook y, rfl⟩

def c9Row : BookRow :=
  { id := "b7", title := "Plain text", author := none, file_path := "/t.txt",
    file_type := "txt", cover_data := none, added_at := 7,
    last_read_at := none, total_pages := 1 }

def c9Db : Database :=
  { books := [c9Row], annotations := [], reading_positions := [] }

/-- Witness for C9: a row whose `file_type` column is `"txt"`. -/
theorem c9_unknown_file_type_defaults_pdf_witness :
    BookType.from_extension c9Row.file_type = none ∧
    (BookRow.toBook c9Row).file_type = BookType.Pdf ∧
    (∃ bs, Database.get_all_books c9Db = Except.ok bs ∧
      BookRow.toBook c9Row ∈ bs) ∧
    (∃ b, Database.get_book c9Db c9Row.id = Except.ok (some b)) :=
  c9_unknown_file_type_defaults_pdf c9Db c9Row (by decide) (by decide)
    (by decide)
